import Mathlib

/-!
Verification of the agent-pod reconciler (workflow/controller/agent.go).

The file shallowly embeds the reconciler's data model and operations:

* pure helpers (getAgentPodName, isAgentPod, assessAgentPodStatus) become
  Lean functions;
* functions that talk to the cluster (createAgentPod, reconcileAgentPod,
  getAgentPlugins) are parameterised by their collaborators: the informer
  store lookup and the remote pod-creation API are bundled in ClusterAPI,
  and the string-array decoder (sigs.k8s.io/yaml.Unmarshal into []string)
  is an explicit parameter;
* the side effects a reconcile pass performs (store lookups, plugin
  discovery, pod synthesis, remote creation, markWorkflowError invocations)
  are recorded in a Trace value returned alongside the result;
* a Go pointer that may be nil is an Option; a Go (value, error) return
  is an Except; a Go panic from dereferencing a nil pod pointer is the
  distinguished ReconcileOutcome.nilDeref.

Repository code referenced by agent.go but not included in the provided
sources (Workflow.NodeID, wfv1.MustMarshallJSON, the common.* label and
environment-variable constants) is modelled from the spec; each such
definition carries a doc comment saying so.
-/

/-- A single environment variable of a container (apiv1.EnvVar). -/
structure EnvVar where
  name : String
  value : String
deriving DecidableEq, Repr

/-- A container spec (the fields of apiv1.Container that agent.go sets). -/
structure Container where
  name : String
  image : String
  command : List String
  args : List String
  env : List EnvVar
deriving DecidableEq, Repr

/-- Object metadata (the fields of metav1.ObjectMeta that agent.go uses).
Labels are a list of key/value pairs; owner references are recorded as the
names of the owning workflow objects. -/
structure ObjectMeta where
  name : String
  ns : String
  labels : List (String × String)
  ownerRefs : List String
deriving DecidableEq, Repr

/-- Pod spec (the fields of apiv1.PodSpec that agent.go sets). -/
structure PodSpec where
  restartPolicy : String
  imagePullSecrets : List String
  serviceAccountName : String
  containers : List Container
deriving DecidableEq, Repr

/-- Pod status: the phase and message fields read by the assessor. -/
structure PodStatus where
  phase : String
  message : String
deriving DecidableEq, Repr

/-- A pod object (apiv1.Pod). -/
structure Pod where
  meta : ObjectMeta
  spec : PodSpec
  status : PodStatus
deriving DecidableEq, Repr

/-- The workflow fields the reconciler reads (wfv1.Workflow). -/
structure Workflow where
  name : String
  ns : String
  serviceAccountName : String
  imagePullSecrets : List String
deriving DecidableEq, Repr

/-- A configuration object holding a plugin descriptor (apiv1.ConfigMap):
a name plus a string-to-string data map, modelled as an association list. -/
structure ConfigMap where
  name : String
  data : List (String × String)
deriving DecidableEq, Repr

/-- The controller state getAgentPlugins and createAgentPod read: the
plugin feature flag, the controller's own namespace, the configured
instance id, the executor image, and the configuration-object lister
(getConfigMaps), modelled as a collaborator function from a namespace to
either an error or the list of plugin-marked configuration objects. -/
structure Controller where
  plugins : Bool
  ns : String
  instanceID : String
  executorImage : String
  getCMs : String → Except String (List ConfigMap)

/-- The per-reconcile operation context (wfOperationCtx): the workflow,
the execution workflow (source of image-pull secrets), the task set, and
the controller. The task set is modelled as the list of task identifiers;
agent.go only tests its size. -/
structure WfOperationCtx where
  wf : Workflow
  execWf : Workflow
  taskSet : List String
  controller : Controller

/-- Result of looking up a key in the pod informer store.  The Go code
receives (obj interface, exists bool, err error) and then type-asserts
obj to a pod; notAPod models the case where the entry exists but the
assertion fails. -/
inductive StoreLookup where
  | errored (msg : String)
  | missing
  | notAPod
  | found (p : Pod)

/-- Result of the remote pod-creation call.  Modelled from the spec:
the pod-creation collaborator contract (spec section 6) is
create(pod) = pod | AlreadyExistsError | other error — on an error no pod
value is produced, so the Go pod pointer returned alongside a non-nil
error is the nil pointer. -/
inductive CreateResult where
  | ok (p : Pod)
  | alreadyExists
  | otherError (msg : String)

/-- The two cluster collaborators used by createAgentPod: the informer
store lookup (keyed by "namespace/name") and the remote creation call. -/
structure ClusterAPI where
  storeGet : String → StoreLookup
  create : Pod → CreateResult

/-- Trace of the side effects performed during one call: number of
informer-store lookups, plugin-discovery runs, pod syntheses, remote
creation calls, and the list of messages passed to the external
markWorkflowError collaborator, in order. -/
structure Trace where
  storeCalls : Nat
  discoveryCalls : Nat
  synthCalls : Nat
  createCalls : Nat
  markErrorMsgs : List String
deriving DecidableEq, Repr

/-- The empty trace: no collaborator was invoked. -/
def Trace.zero : Trace := ⟨0, 0, 0, 0, []⟩

/-- Outcome of one reconcile pass: success (nil error), failure (non-nil
error), or a Go panic from dereferencing a nil pod pointer. -/
inductive ReconcileOutcome where
  | success
  | failure (msg : String)
  | nilDeref
deriving DecidableEq, Repr

/-- apiv1.PodSucceeded. -/
def PodSucceeded : String := "Succeeded"

/-- apiv1.PodRunning. -/
def PodRunning : String := "Running"

/-- apiv1.PodPending. -/
def PodPending : String := "Pending"

/-- apiv1.PodFailed. -/
def PodFailed : String := "Failed"

/-- wfv1.WorkflowFailed. -/
def WorkflowFailed : String := "Failed"

/-- wfv1.WorkflowError. -/
def WorkflowError : String := "Error"

/-- apiv1.RestartPolicyOnFailure. -/
def RestartPolicyOnFailure : String := "OnFailure"

/-- Modelled from the spec: the common.LabelKeyWorkflow label key
(repository code not included under the provided sources); carries the
workflow identifier. -/
def LabelKeyWorkflow : String := "workflows.argoproj.io/workflow"

/-- Modelled from the spec: the common.LabelKeyCompleted label key
(repository code not included under the provided sources); the completion
flag. -/
def LabelKeyCompleted : String := "workflows.argoproj.io/completed"

/-- Modelled from the spec: the common.LabelKeyControllerInstanceID label
key (repository code not included under the provided sources). -/
def LabelKeyControllerInstanceID : String := "workflows.argoproj.io/controller-instanceid"

/-- Modelled from the spec: the common.EnvVarWorkflowName variable name
(repository code not included under the provided sources); its value is
the workflow identifier as plain text. -/
def EnvVarWorkflowName : String := "ARGO_WORKFLOW_NAME"

/-- Modelled from the spec: the common.EnvVarPluginAddresses variable name
(repository code not included under the provided sources); its value is
the plugin address list serialized as a JSON array of strings. -/
def EnvVarPluginAddresses : String := "ARGO_PLUGIN_ADDRESSES"

/-- The 32-bit FNV-1a hash of a string, folded over its characters. -/
def fnv1a32 (s : String) : Nat :=
  s.data.foldl (fun h c => ((h ^^^ c.toNat) * 16777619) % 4294967296) 2166136261

/-- Modelled from the spec: Workflow.NodeID lives in repository code not
included under the provided sources; per the spec the derived name is a
deterministic pure function of the workflow identifier (the identifier
plus a hash of the node name), stable across calls and processes. -/
def nodeID (wfName : String) (name : String) : String :=
  if name = wfName then wfName else wfName ++ "-" ++ toString (fnv1a32 name)

/-- getAgentPodName: the deterministic agent-pod name derived from the
workflow (woc.wf.NodeID("agent") + "-agent"). -/
def getAgentPodName (woc : WfOperationCtx) : String :=
  nodeID woc.wf.name "agent" ++ "-agent"

/-- isAgentPod: pod.Name == woc.getAgentPodName(). -/
def isAgentPod (woc : WfOperationCtx) (pod : Pod) : Bool :=
  pod.meta.name == getAgentPodName woc

/-- assessAgentPodStatus: map the observed pod phase to a workflow-level
phase decision and message. -/
def assessAgentPodStatus (pod : Pod) : String × String :=
  if pod.status.phase = PodSucceeded ∨ pod.status.phase = PodRunning ∨
      pod.status.phase = PodPending then
    ("", "")
  else if pod.status.phase = PodFailed then
    (WorkflowFailed, pod.status.message)
  else
    (WorkflowError,
      "Unexpected pod phase for " ++ pod.meta.name ++ ": " ++ pod.status.phase)

/-- updateAgentPodStatus: run the assessor and, on a Failed or Error
decision, invoke markWorkflowError with the wrapped message.  The returned
list holds the messages passed to the markWorkflowError collaborator. -/
def updateAgentPodStatus (pod : Pod) : List String :=
  let r := assessAgentPodStatus pod
  if r.1 = WorkflowFailed ∨ r.1 = WorkflowError then
    ["agent pod failed with reason " ++ r.2]
  else
    []

/-- Modelled from the spec: wfv1.MustMarshallJSON is repository code not
included under the provided sources; per the spec the address list is
serialized as a JSON array of strings, in order.  Escaping of special
characters inside an address is elided (no claim depends on it). -/
def mustMarshallJSON (xs : List String) : String :=
  "[" ++ String.intercalate "," (xs.map (fun s => "\"" ++ s ++ "\"")) ++ "]"

/-- The main container of the agent pod, exactly as built in
createAgentPod. -/
def mainContainer (woc : WfOperationCtx) (addresses : List String) : Container :=
  { name := "main"
  , image := woc.controller.executorImage
  , command := ["argoexec"]
  , args := ["agent"]
  , env := [⟨EnvVarWorkflowName, woc.wf.name⟩,
            ⟨EnvVarPluginAddresses, mustMarshallJSON addresses⟩] }

/-- The pod object built in createAgentPod from the workflow, the
discovered sidecars and the discovered addresses, including the two
conditional fields (instance-id label, service account) applied after the
literal construction. -/
def synthesizePod (woc : WfOperationCtx) (sidecars : List Container)
    (addresses : List String) : Pod :=
  let baseLabels := [(LabelKeyWorkflow, woc.wf.name), (LabelKeyCompleted, "false")]
  let labels :=
    if woc.controller.instanceID ≠ "" then
      baseLabels ++ [(LabelKeyControllerInstanceID, woc.controller.instanceID)]
    else baseLabels
  { meta :=
      { name := getAgentPodName woc
      , ns := woc.wf.ns
      , labels := labels
      , ownerRefs := [woc.wf.name] }
  , spec :=
      { restartPolicy := RestartPolicyOnFailure
      , imagePullSecrets := woc.execWf.imagePullSecrets
      , serviceAccountName :=
          if woc.wf.serviceAccountName ≠ "" then woc.wf.serviceAccountName else ""
      , containers := sidecars ++ [mainContainer woc addresses] }
  , status := { phase := "", message := "" } }

/-- Parse one optional command/args field of a plugin descriptor: an
absent key leaves the Go slice nil (empty); a present key is decoded by
the string-array decoder, a failure being wrapped exactly as in
getAgentPlugins. -/
def parseField (decode : String → Except String (List String)) :
    Option String → Except String (List String)
  | none => .ok []
  | some v =>
    match decode v with
    | .ok xs => .ok xs
    | .error e => .error ("failed to parse \"" ++ v ++ "\": " ++ e)

/-- Process one plugin configuration object into its sidecar container and
its address, as in the body of getAgentPlugins' inner loop: the command
field is decoded first, then the args field, the first failure aborting. -/
def agentPluginEntry (decode : String → Except String (List String))
    (cm : ConfigMap) : Except String (Container × String) :=
  match parseField decode (cm.data.lookup "command") with
  | .error e => .error e
  | .ok command =>
    match parseField decode (cm.data.lookup "args") with
    | .error e => .error e
    | .ok args =>
      .ok ({ name := cm.name
           , image := ((cm.data.lookup "image").getD "")
           , command := command
           , args := args
           , env := [] },
           (cm.data.lookup "address").getD "")

/-- Process a list of plugin configuration objects in order; the first
malformed descriptor aborts the whole computation. -/
def agentPluginEntries (decode : String → Except String (List String)) :
    List ConfigMap → Except String (List (Container × String))
  | [] => .ok []
  | cm :: rest =>
    match agentPluginEntry decode cm with
    | .error e => .error e
    | .ok e =>
      match agentPluginEntries decode rest with
      | .error e2 => .error e2
      | .ok es => .ok (e :: es)

/-- Process the scopes in order: list each scope's plugin configuration
objects via the controller's lister and process them; any listing error or
malformed descriptor aborts the whole computation. -/
def agentPluginEntriesNS (decode : String → Except String (List String))
    (ctrl : Controller) : List String → Except String (List (Container × String))
  | [] => .ok []
  | n :: rest =>
    match ctrl.getCMs n with
    | .error e => .error e
    | .ok cms =>
      match agentPluginEntries decode cms with
      | .error e2 => .error e2
      | .ok es =>
        match agentPluginEntriesNS decode ctrl rest with
        | .error e3 => .error e3
        | .ok more => .ok (es ++ more)

/-- The deduplicated scope set {controller namespace, workflow namespace}.
The Go code iterates a map, whose order is unspecified; a fixed order is
chosen here (controller namespace first) — no claim depends on the order. -/
def agentNamespaces (woc : WfOperationCtx) : List String :=
  if woc.wf.ns = woc.controller.ns then [woc.controller.ns]
  else [woc.controller.ns, woc.wf.ns]

/-- getAgentPlugins: when the plugin feature is enabled, discover the
plugin sidecars and their addresses across the two scopes; otherwise
return the empty lists. -/
def getAgentPlugins (decode : String → Except String (List String))
    (woc : WfOperationCtx) : Except String (List Container × List String) :=
  if woc.controller.plugins then
    match agentPluginEntriesNS decode woc.controller (agentNamespaces woc) with
    | .error e => .error e
    | .ok es => .ok (es.map Prod.fst, es.map Prod.snd)
  else .ok ([], [])

/-- createAgentPod: consult the informer store; on a hit return the cached
pod; on a miss run discovery, synthesize the pod and submit it to the
remote creation API.  A successful creation returns the API's pod; an
AlreadyExists failure returns the pod value accompanying the failed create
call — which is the nil pointer (none) — together with a nil error; any
other failure is wrapped and returned as an error.  The second component
traces the collaborator calls performed. -/
def createAgentPod (api : ClusterAPI)
    (decode : String → Except String (List String)) (woc : WfOperationCtx) :
    Except String (Option Pod) × Trace :=
  let podName := getAgentPodName woc
  match api.storeGet (woc.wf.ns ++ "/" ++ podName) with
  | .errored msg =>
    (.error ("failed to get pod from informer store: " ++ msg), ⟨1, 0, 0, 0, []⟩)
  | .found existing => (.ok (some existing), ⟨1, 0, 0, 0, []⟩)
  | .missing | .notAPod =>
    match getAgentPlugins decode woc with
    | .error e => (.error e, ⟨1, 1, 0, 0, []⟩)
    | .ok (sidecars, addresses) =>
      let pod := synthesizePod woc sidecars addresses
      match api.create pod with
      | .ok created => (.ok (some created), ⟨1, 1, 1, 1, []⟩)
      | .alreadyExists => (.ok none, ⟨1, 1, 1, 1, []⟩)
      | .otherError m =>
        (.error ("failed to create Agent pod. Reason: " ++ m), ⟨1, 1, 1, 1, []⟩)

/-- reconcileAgentPod: one reconcile pass.  An empty task set is a no-op.
Otherwise ensure the agent pod exists; an error propagates; a pod carrying
a settled (non-empty) phase is assessed and a terminal decision is passed
to markWorkflowError; reading the phase of a nil pod pointer is the Go
panic, recorded as ReconcileOutcome.nilDeref. -/
def reconcileAgentPod (api : ClusterAPI)
    (decode : String → Except String (List String)) (woc : WfOperationCtx) :
    ReconcileOutcome × Trace :=
  if woc.taskSet.length = 0 then (.success, Trace.zero)
  else
    match createAgentPod api decode woc with
    | (.error e, t) => (.failure e, t)
    | (.ok none, t) => (.nilDeref, t)
    | (.ok (some pod), t) =>
      if pod.status.phase ≠ "" then
        (.success, { t with markErrorMsgs := t.markErrorMsgs ++ updateAgentPodStatus pod })
      else (.success, t)

/-- The proposition that sub occurs inside s as a contiguous substring. -/
def strContains (s sub : String) : Prop := ∃ pre post, s = pre ++ sub ++ post

/-- Boolean test that an Except value is an error. -/
def exceptHasError {ε α : Type} : Except ε α → Bool
  | .error _ => true
  | .ok _ => false

/-- A plugin descriptor whose command field or args field is present but
fails to decode as a serialized string array. -/
def malformedPluginCM (decode : String → Except String (List String))
    (cm : ConfigMap) : Prop :=
  (∃ v, cm.data.lookup "command" = some v ∧ ∃ e, decode v = .error e) ∨
  (∃ v, cm.data.lookup "args" = some v ∧ ∃ e, decode v = .error e)

/-- Replace a pod's namespace, leaving every other field unchanged. -/
def setPodNS (pod : Pod) (n : String) : Pod :=
  { pod with meta := { pod.meta with ns := n } }

/-- A string-array decoder that accepts everything as the empty array;
used in scenarios whose descriptors carry no command/args fields. -/
def decodeNone : String → Except String (List String) := fun _ => .ok []

/-- A controller with the plugin feature disabled. -/
def ctrlNoPlugins : Controller :=
  ⟨false, "argo", "", "argoexec:latest", fun _ => .ok []⟩

/-- Scenario for claims about the AlreadyExists creation race: a workflow
with one pending task. -/
def wf1 : Workflow := ⟨"wf-1", "ns-1", "", []⟩

/-- Operation context for the AlreadyExists scenario. -/
def woc1 : WfOperationCtx := ⟨wf1, wf1, ["task-1"], ctrlNoPlugins⟩

/-- Cluster collaborators for the AlreadyExists scenario: the informer
store misses (stale cache) and the remote create call reports that the
deterministic name already exists. -/
def api1 : ClusterAPI := ⟨fun _ => .missing, fun _ => .alreadyExists⟩

/-- A pod in the unrecognized phase "Unknown". -/
def podUnknown : Pod :=
  ⟨⟨"wf-3-agent", "ns-3", [], []⟩, ⟨"Never", [], "", []⟩, ⟨"Unknown", "m"⟩⟩

/-- A cached pod whose phase is still empty (not yet scheduled). -/
def podUnsetPhase : Pod :=
  ⟨⟨"wf-4-agent", "ns-4", [], []⟩, ⟨"OnFailure", [], "", []⟩, ⟨"", ""⟩⟩

/-- Operation context for the unset-phase scenario. -/
def woc4 : WfOperationCtx :=
  ⟨⟨"wf-4", "ns-4", "", []⟩, ⟨"wf-4", "ns-4", "", []⟩, ["task-1"], ctrlNoPlugins⟩

/-- Cluster collaborators for the unset-phase scenario: the store returns
the cached empty-phase pod. -/
def api4c : ClusterAPI := ⟨fun _ => .found podUnsetPhase, fun p => .ok p⟩

/-- A cached pod that has failed with an OOMKilled message. -/
def podFailed4 : Pod :=
  ⟨⟨"wf-4b-agent", "ns-4", [], []⟩, ⟨"OnFailure", [], "", []⟩, ⟨"Failed", "OOMKilled"⟩⟩

/-- Operation context for the failed-pod scenario. -/
def woc4w : WfOperationCtx :=
  ⟨⟨"wf-4b", "ns-4", "", []⟩, ⟨"wf-4b", "ns-4", "", []⟩, ["task-1"], ctrlNoPlugins⟩

/-- Cluster collaborators for the failed-pod scenario. -/
def api4w : ClusterAPI := ⟨fun _ => .found podFailed4, fun p => .ok p⟩

/-- A plugin descriptor whose command field is not a serialized string
array. -/
def cm5 : ConfigMap :=
  ⟨"plugin-a", [("command", "notalist"), ("image", "img1"), ("address", "10.0.0.1:50051")]⟩

/-- A decoder that rejects every encoding. -/
def decodeFail5 : String → Except String (List String) :=
  fun _ => .error "error unmarshaling"

/-- A controller whose cluster scope lists the malformed descriptor. -/
def ctrl5 : Controller := ⟨true, "argo", "", "argoexec:latest", fun _ => .ok [cm5]⟩

/-- Operation context for the malformed-descriptor scenario; the workflow
lives in the controller's namespace so a single scope is queried. -/
def woc5 : WfOperationCtx :=
  ⟨⟨"wf-5", "argo", "", []⟩, ⟨"wf-5", "argo", "", []⟩, ["task-1"], ctrl5⟩

/-- First well-formed plugin descriptor of the discovery scenario. -/
def cm6a : ConfigMap := ⟨"plugin-a", [("image", "img1"), ("address", "10.0.0.1:50051")]⟩

/-- Second well-formed plugin descriptor of the discovery scenario. -/
def cm6b : ConfigMap := ⟨"plugin-b", [("image", "img2"), ("address", "10.0.0.2:50051")]⟩

/-- A controller whose cluster scope lists the two well-formed
descriptors. -/
def ctrl6 : Controller :=
  ⟨true, "argo", "", "argoexec:latest", fun _ => .ok [cm6a, cm6b]⟩

/-- Operation context for the two-descriptor discovery scenario. -/
def woc6 : WfOperationCtx :=
  ⟨⟨"wf-6", "argo", "", []⟩, ⟨"wf-6", "argo", "", []⟩, ["task-1"], ctrl6⟩

/-- The sidecars discovered in the two-descriptor scenario. -/
def scs6 : List Container :=
  [⟨"plugin-a", "img1", [], [], []⟩, ⟨"plugin-b", "img2", [], [], []⟩]

/-- The addresses discovered in the two-descriptor scenario. -/
def addrs6 : List String := ["10.0.0.1:50051", "10.0.0.2:50051"]

/-- Operation context for the synthesis-shape scenario (plugin feature
disabled, so discovery yields the empty lists). -/
def woc7 : WfOperationCtx :=
  ⟨⟨"wf-7", "ns-7", "sa-7", ["secret-1"]⟩, ⟨"wf-7", "ns-7", "", ["secret-1"]⟩,
   ["task-1"], ctrlNoPlugins⟩

/-- Cluster collaborators for the synthesis-shape scenario: the store
misses and the creation API echoes the submitted pod. -/
def api7 : ClusterAPI := ⟨fun _ => .missing, fun p => .ok p⟩

/-- Operation context with an empty task set. -/
def woc8 : WfOperationCtx :=
  ⟨⟨"wf-8", "ns-8", "", []⟩, ⟨"wf-8", "ns-8", "", []⟩, [], ctrlNoPlugins⟩

/-- Cluster collaborators for the empty-task-set scenario. -/
def api8 : ClusterAPI := ⟨fun _ => .missing, fun p => .ok p⟩

/-- One of two operation contexts sharing a workflow identifier but
differing in namespaces, service account, task set and controller. -/
def woc9a : WfOperationCtx :=
  ⟨⟨"wf-9", "ns-a", "sa-a", ["s1"]⟩, ⟨"wf-9", "ns-a", "", []⟩, ["task-1"], ctrlNoPlugins⟩

/-- The other operation context with the same workflow identifier. -/
def woc9b : WfOperationCtx :=
  ⟨⟨"wf-9", "ns-b", "", []⟩, ⟨"wf-9", "ns-b", "", []⟩, [], ctrl6⟩

/-- Claim C1 (code bug): the claim says that when creation fails because
the deterministic agent-pod name already exists, createAgentPod returns,
with a nil error, the existing pod object.  The code instead returns the
pod value accompanying the failed create call — which, under the creation
collaborator's contract, is the nil pointer — so on a stale informer cache
plus an AlreadyExists response the function returns a nil error and no
pod, never the existing object. -/
theorem createAgentPod_already_exists_returns_no_pod :
    (createAgentPod api1 decodeNone woc1).1 = .ok none := rfl

/-- Claim C2 (code bug): the claim says a nil-error createAgentPod result
always carries a non-nil pod, so reconcileAgentPod's read of the pod
phase is safe.  On the AlreadyExists path createAgentPod returns a nil
error with a nil pod, and reconcileAgentPod dereferences it: the pass
ends in the nil-dereference panic. -/
theorem reconcileAgentPod_already_exists_nil_deref :
    (reconcileAgentPod api1 decodeNone woc1).1 = .nilDeref := rfl

/-- Claim C3: assessAgentPodStatus implements exactly the phase-mapping
table: Succeeded, Running and Pending yield the empty result; Failed
yields (WorkflowFailed, the pod-reported message); every other phase —
including the empty string — yields WorkflowError with a message
containing the pod's name and the raw phase string. -/
theorem assessAgentPodStatus_phase_table (pod : Pod) :
    ((pod.status.phase = PodSucceeded ∨ pod.status.phase = PodRunning ∨
        pod.status.phase = PodPending) →
      assessAgentPodStatus pod = ("", "")) ∧
    (pod.status.phase = PodFailed →
      assessAgentPodStatus pod = (WorkflowFailed, pod.status.message)) ∧
    (pod.status.phase ≠ PodSucceeded → pod.status.phase ≠ PodRunning →
      pod.status.phase ≠ PodPending → pod.status.phase ≠ PodFailed →
      (assessAgentPodStatus pod).1 = WorkflowError ∧
      strContains (assessAgentPodStatus pod).2 pod.meta.name ∧
      strContains (assessAgentPodStatus pod).2 pod.status.phase) := by
  refine ⟨?_, ?_, ?_⟩
  · intro h
    unfold assessAgentPodStatus
    rw [if_pos h]
  · intro h
    unfold assessAgentPodStatus
    rw [h]
    rw [if_neg (by decide), if_pos (by decide)]
  · intro h1 h2 h3 h4
    have hcond : ¬ (pod.status.phase = PodSucceeded ∨ pod.status.phase = PodRunning ∨
        pod.status.phase = PodPending) := by
      simp only [not_or]
      exact ⟨h1, h2, h3⟩
    unfold assessAgentPodStatus
    rw [if_neg hcond, if_neg h4]
    refine ⟨rfl, ?_, ?_⟩
    · exact ⟨"Unexpected pod phase for ", ": " ++ pod.status.phase,
        by rw [String.append_assoc]⟩
    · refine ⟨"Unexpected pod phase for " ++ pod.meta.name ++ ": ", "",
        ?_⟩
      rw [String.append_empty, String.append_assoc]

/-- Closed instance of the C3 table at the unrecognized phase "Unknown":
the decision is WorkflowError and the message contains the pod name and
the raw phase. -/
theorem assessAgentPodStatus_phase_table_witness :
    (assessAgentPodStatus podUnknown).1 = WorkflowError ∧
    strContains (assessAgentPodStatus podUnknown).2 podUnknown.meta.name ∧
    strContains (assessAgentPodStatus podUnknown).2 podUnknown.status.phase :=
  (assessAgentPodStatus_phase_table podUnknown).2.2
    (by decide) (by decide) (by decide) (by decide)

/-- Claim C8: with an empty task set the reconcile pass returns success
and performs zero collaborator calls: no store lookup, no discovery, no
synthesis, no creation, no error propagation. -/
theorem reconcileAgentPod_empty_taskset_noop (api : ClusterAPI)
    (decode : String → Except String (List String)) (woc : WfOperationCtx)
    (h : woc.taskSet = []) :
    reconcileAgentPod api decode woc = (.success, Trace.zero) := by
  unfold reconcileAgentPod
  rw [h]
  rfl

/-- Closed instance of C8 at a concrete empty-task-set context. -/
theorem reconcileAgentPod_empty_taskset_noop_witness :
    reconcileAgentPod api8 decodeNone woc8 = (.success, Trace.zero) :=
  reconcileAgentPod_empty_taskset_noop api8 decodeNone woc8 rfl

/-- Claim C9: the derived agent-pod name is a pure deterministic function
of the workflow identifier: contexts agreeing on the identifier agree on
the name, whatever their namespaces, service accounts, task sets or
controllers. -/
theorem getAgentPodName_deterministic (a b : WfOperationCtx)
    (h : a.wf.name = b.wf.name) : getAgentPodName a = getAgentPodName b := by
  unfold getAgentPodName nodeID
  rw [h]

/-- Closed instance of C9: two contexts sharing only the workflow
identifier derive the same agent-pod name. -/
theorem getAgentPodName_deterministic_witness :
    getAgentPodName woc9a = getAgentPodName woc9b :=
  getAgentPodName_deterministic woc9a woc9b rfl

/-- Claim C10: isAgentPod holds exactly when the pod's name equals the
workflow's deterministic agent-pod name; the pod's namespace is never
consulted, so changing it — to any other namespace — never changes the
answer. -/
theorem isAgentPod_name_only (woc : WfOperationCtx) (pod : Pod) :
    (isAgentPod woc pod = true ↔ pod.meta.name = getAgentPodName woc) ∧
    (∀ n : String, isAgentPod woc (setPodNS pod n) = isAgentPod woc pod) := by
  constructor
  · unfold isAgentPod
    exact beq_iff_eq
  · intro n
    rfl

/-- createAgentPod never invokes the error-propagation collaborator: the
markWorkflowError message list of its trace is always empty. -/
theorem createAgentPod_no_mark (api : ClusterAPI)
    (decode : String → Except String (List String)) (woc : WfOperationCtx) :
    (createAgentPod api decode woc).2.markErrorMsgs = [] := by
  simp only [createAgentPod]
  split <;> try rfl
  all_goals split <;> try rfl
  all_goals split <;> rfl

/-- Claim C4 counterexample: a cached agent pod whose phase is still
empty assesses to the terminal WorkflowError decision, yet the reconcile
pass — which only assesses settled (non-empty) phases — performs zero
markWorkflowError invocations and returns success, refuting the claim's
"exactly once" for every pod whose assessed phase is terminal. -/
theorem reconcile_unset_phase_skips_assessment :
    (assessAgentPodStatus podUnsetPhase).1 = WorkflowError ∧
    (reconcileAgentPod api4c decodeNone woc4).1 = .success ∧
    (reconcileAgentPod api4c decodeNone woc4).2.markErrorMsgs = [] :=
  ⟨rfl, rfl, rfl⟩

/-- Claim C4 (amended): for every pod returned by the ensure step with a
settled (non-empty) phase whose assessment is a terminal failure, the
reconcile pass invokes markWorkflowError exactly once, with the message
carrying the assessed message, and still returns success; when the
assessment yields no transition, or the phase is empty, the collaborator
is not invoked. -/
theorem reconcile_terminal_failure_marks_once (api : ClusterAPI)
    (decode : String → Except String (List String)) (woc : WfOperationCtx)
    (p : Pod) (t : Trace)
    (htask : woc.taskSet ≠ [])
    (hcreate : createAgentPod api decode woc = (.ok (some p), t)) :
    (reconcileAgentPod api decode woc).1 = .success ∧
    (p.status.phase ≠ "" →
      ((assessAgentPodStatus p).1 = WorkflowFailed ∨
        (assessAgentPodStatus p).1 = WorkflowError) →
      (reconcileAgentPod api decode woc).2.markErrorMsgs =
        ["agent pod failed with reason " ++ (assessAgentPodStatus p).2]) ∧
    (assessAgentPodStatus p = ("", "") →
      (reconcileAgentPod api decode woc).2.markErrorMsgs = []) ∧
    (p.status.phase = "" →
      (reconcileAgentPod api decode woc).2.markErrorMsgs = []) := by
  have hlen : ¬ (woc.taskSet.length = 0) := by
    simpa [List.length_eq_zero] using htask
  have hmark : t.markErrorMsgs = [] := by
    have h := createAgentPod_no_mark api decode woc
    rw [hcreate] at h
    exact h
  have hrec : reconcileAgentPod api decode woc =
      (if p.status.phase ≠ "" then
        (.success, { t with markErrorMsgs := t.markErrorMsgs ++ updateAgentPodStatus p })
       else (.success, t)) := by
    unfold reconcileAgentPod
    rw [if_neg hlen, hcreate]
  refine ⟨?_, ?_, ?_, ?_⟩
  · rw [hrec]
    split <;> rfl
  · intro hph hterm
    rw [hrec, if_pos hph]
    simp only [hmark, List.nil_append]
    unfold updateAgentPodStatus
    rw [if_pos hterm]
  · intro hassess
    rw [hrec]
    split
    · simp only [hmark, List.nil_append]
      unfold updateAgentPodStatus
      rw [hassess]
      rfl
    · exact hmark
  · intro hph
    rw [hrec, if_neg (by simp [hph])]
    exact hmark

/-- Closed instance of the amended C4 at a cached Failed pod: the pass
succeeds and markWorkflowError receives exactly one message, carrying the
assessed message. -/
theorem reconcile_terminal_failure_marks_once_witness :
    (reconcileAgentPod api4w decodeNone woc4w).1 = .success ∧
    (reconcileAgentPod api4w decodeNone woc4w).2.markErrorMsgs =
      ["agent pod failed with reason " ++ (assessAgentPodStatus podFailed4).2] := by
  have h := reconcile_terminal_failure_marks_once api4w decodeNone woc4w podFailed4
    ⟨1, 0, 0, 0, []⟩ (by decide) rfl
  exact ⟨h.1, h.2.1 (by decide) (Or.inl (by decide))⟩

/-- A malformed descriptor makes its own entry computation fail. -/
theorem agentPluginEntry_malformed (decode : String → Except String (List String))
    (cm : ConfigMap) (h : malformedPluginCM decode cm) :
    exceptHasError (agentPluginEntry decode cm) = true := by
  unfold agentPluginEntry
  rcases h with ⟨v, hv, e, he⟩ | ⟨v, hv, e, he⟩
  · rw [show parseField decode (cm.data.lookup "command") =
        .error ("failed to parse \"" ++ v ++ "\": " ++ e) by
      rw [hv]; simp only [parseField]; rw [he]]
    rfl
  · cases hc : parseField decode (cm.data.lookup "command") with
    | error e1 => rfl
    | ok xs =>
      rw [show parseField decode (cm.data.lookup "args") =
          .error ("failed to parse \"" ++ v ++ "\": " ++ e) by
        rw [hv]; simp only [parseField]; rw [he]]
      rfl

/-- If some descriptor in the list has a failing entry computation, the
whole list's computation fails. -/
theorem agentPluginEntries_member_error (decode : String → Except String (List String))
    (cms : List ConfigMap) (cm : ConfigMap)
    (hmem : cm ∈ cms)
    (hbad : exceptHasError (agentPluginEntry decode cm) = true) :
    exceptHasError (agentPluginEntries decode cms) = true := by
  induction cms with
  | nil => cases hmem
  | cons c rest ih =>
    unfold agentPluginEntries
    cases h1 : agentPluginEntry decode c with
    | error e => rfl
    | ok e =>
      cases h2 : agentPluginEntries decode rest with
      | error e2 => rfl
      | ok es =>
        rcases List.mem_cons.mp hmem with heq | hmem2
        · rw [← heq] at h1
          rw [h1] at hbad
          simp [exceptHasError] at hbad
        · have h3 := ih hmem2
          rw [h2] at h3
          simp [exceptHasError] at h3

/-- If a listed scope's descriptors have a failing computation, the whole
multi-scope computation fails. -/
theorem agentPluginEntriesNS_member_error (decode : String → Except String (List String))
    (ctrl : Controller) (nss : List String) (n : String) (cms : List ConfigMap)
    (hmem : n ∈ nss)
    (hcms : ctrl.getCMs n = .ok cms)
    (hbad : exceptHasError (agentPluginEntries decode cms) = true) :
    exceptHasError (agentPluginEntriesNS decode ctrl nss) = true := by
  induction nss with
  | nil => cases hmem
  | cons m rest ih =>
    unfold agentPluginEntriesNS
    split
    · rfl
    rename_i l hget
    split
    · rfl
    rename_i es hes
    split
    · rfl
    rename_i more hmore
    exfalso
    rcases List.mem_cons.mp hmem with heq | hmem2
    · rw [← heq] at hget
      rw [hcms] at hget
      have hl : cms = l := Except.ok.inj hget
      rw [hl, hes] at hbad
      simp [exceptHasError] at hbad
    · have h4 := ih hmem2
      rw [hmore] at h4
      simp [exceptHasError] at h4

/-- Claim C5: when the plugin feature is on and any descriptor listed in
one of the queried scopes has a command or args field that fails to
decode, the entire getAgentPlugins call fails — no sidecar or address
list, partial or otherwise, is returned. -/
theorem getAgentPlugins_parse_error_fails_call
    (decode : String → Except String (List String)) (woc : WfOperationCtx)
    (n : String) (cms : List ConfigMap) (cm : ConfigMap)
    (hp : woc.controller.plugins = true)
    (hns : n ∈ agentNamespaces woc)
    (hcms : woc.controller.getCMs n = .ok cms)
    (hcm : cm ∈ cms)
    (hbad : malformedPluginCM decode cm) :
    exceptHasError (getAgentPlugins decode woc) = true := by
  have h1 := agentPluginEntry_malformed decode cm hbad
  have h2 := agentPluginEntries_member_error decode cms cm hcm h1
  have h3 := agentPluginEntriesNS_member_error decode woc.controller
    (agentNamespaces woc) n cms hns hcms h2
  unfold getAgentPlugins
  rw [hp]
  simp only [if_true]
  cases h4 : agentPluginEntriesNS decode woc.controller (agentNamespaces woc) with
  | error e => rfl
  | ok es =>
    rw [h4] at h3
    simp [exceptHasError] at h3

/-- Closed instance of C5: one scope lists one descriptor whose command
field rejects; discovery as a whole fails. -/
theorem getAgentPlugins_parse_error_fails_call_witness :
    exceptHasError (getAgentPlugins decodeFail5 woc5) = true :=
  getAgentPlugins_parse_error_fails_call decodeFail5 woc5 "argo" [cm5] cm5
    rfl (by decide) rfl (by decide)
    (Or.inl ⟨"notalist", rfl, "error unmarshaling", rfl⟩)

/-- Every entry of a successful per-scope computation comes from one of
the scope's descriptors. -/
theorem agentPluginEntries_ok_mem (decode : String → Except String (List String))
    (cms : List ConfigMap) (es : List (Container × String))
    (h : agentPluginEntries decode cms = .ok es) :
    ∀ e ∈ es, ∃ cm ∈ cms, agentPluginEntry decode cm = .ok e := by
  induction cms generalizing es with
  | nil =>
    unfold agentPluginEntries at h
    cases h
    intro e he
    cases he
  | cons c rest ih =>
    unfold agentPluginEntries at h
    split at h
    · cases h
    rename_i e0 h1
    split at h
    · cases h
    rename_i es2 h2
    cases h
    intro e he
    rcases List.mem_cons.mp he with heq | he2
    · rw [heq]
      exact ⟨c, List.mem_cons_self c rest, h1⟩
    · obtain ⟨cm, hcm, hentry⟩ := ih es2 h2 e he2
      exact ⟨cm, List.mem_cons_of_mem c hcm, hentry⟩

/-- Every entry of a successful multi-scope computation comes from a
descriptor listed in one of the scopes. -/
theorem agentPluginEntriesNS_ok_mem (decode : String → Except String (List String))
    (ctrl : Controller) (nss : List String) (es : List (Container × String))
    (h : agentPluginEntriesNS decode ctrl nss = .ok es) :
    ∀ e ∈ es, ∃ n ∈ nss, ∃ cms, ctrl.getCMs n = .ok cms ∧
      ∃ cm ∈ cms, agentPluginEntry decode cm = .ok e := by
  induction nss generalizing es with
  | nil =>
    unfold agentPluginEntriesNS at h
    cases h
    intro e he
    cases he
  | cons m rest ih =>
    unfold agentPluginEntriesNS at h
    split at h
    · cases h
    rename_i cms1 h1
    split at h
    · cases h
    rename_i es1 h2
    split at h
    · cases h
    rename_i es2 h3
    cases h
    intro e he
    rcases List.mem_append.mp he with h4 | h4
    · obtain ⟨cm, hcm, hentry⟩ := agentPluginEntries_ok_mem decode cms1 es1 h2 e h4
      exact ⟨m, List.mem_cons_self m rest, cms1, h1, cm, hcm, hentry⟩
    · obtain ⟨n, hn, cms, hcms, cm, hcm, hentry⟩ := ih es2 h3 e h4
      exact ⟨n, List.mem_cons_of_mem m hn, cms, hcms, cm, hcm, hentry⟩

/-- A successful entry computation reads its address, container name and
image from the descriptor's own fields. -/
theorem agentPluginEntry_fields (decode : String → Except String (List String))
    (cm : ConfigMap) (pr : Container × String)
    (h : agentPluginEntry decode cm = .ok pr) :
    pr.2 = (cm.data.lookup "address").getD "" ∧ pr.1.name = cm.name ∧
    pr.1.image = (cm.data.lookup "image").getD "" := by
  unfold agentPluginEntry at h
  split at h
  · cases h
  split at h
  · cases h
  cases h
  exact ⟨rfl, rfl, rfl⟩

/-- Claim C6: a successful discovery returns address and sidecar lists of
equal length, and the i-th address is the address field of the very
configuration object whose entry produced the i-th sidecar. -/
theorem getAgentPlugins_alignment (decode : String → Except String (List String))
    (woc : WfOperationCtx) (scs : List Container) (addrs : List String)
    (h : getAgentPlugins decode woc = .ok (scs, addrs)) :
    scs.length = addrs.length ∧
    ∀ i : Nat, ∀ hi : i < scs.length, ∀ hj : i < addrs.length,
      ∃ cm : ConfigMap,
        (∃ n ∈ agentNamespaces woc, ∃ cms,
          woc.controller.getCMs n = .ok cms ∧ cm ∈ cms) ∧
        agentPluginEntry decode cm = .ok (scs.get ⟨i, hi⟩, addrs.get ⟨i, hj⟩) ∧
        addrs.get ⟨i, hj⟩ = (cm.data.lookup "address").getD "" := by
  unfold getAgentPlugins at h
  by_cases hp : woc.controller.plugins = true
  · rw [hp] at h
    simp only [if_true] at h
    split at h
    · cases h
    rename_i es h4
    cases h
    constructor
    · simp
    · intro i hi hj
      have hi2 : i < es.length := by simpa using hi
      have hmem : es.get ⟨i, hi2⟩ ∈ es := es.get_mem i hi2
      obtain ⟨n, hn, cms, hcms, cm, hcm, hentry⟩ :=
        agentPluginEntriesNS_ok_mem decode woc.controller (agentNamespaces woc)
          es h4 (es.get ⟨i, hi2⟩) hmem
      have h5 : (es.map Prod.fst).get ⟨i, hi⟩ = (es.get ⟨i, hi2⟩).1 := by
        simp [List.get_eq_getElem, List.getElem_map]
      have h6 : (es.map Prod.snd).get ⟨i, hj⟩ = (es.get ⟨i, hi2⟩).2 := by
        simp [List.get_eq_getElem, List.getElem_map]
      refine ⟨cm, ⟨n, hn, cms, hcms, hcm⟩, ?_, ?_⟩
      · rw [h5, h6, Prod.mk.eta]
        exact hentry
      · rw [h6]
        exact (agentPluginEntry_fields decode cm (es.get ⟨i, hi2⟩) hentry).1
  · rw [if_neg hp] at h
    cases h
    refine ⟨rfl, ?_⟩
    intro i hi hj
    simp at hi

/-- Closed instance of C6 in the two-descriptor scenario: the two lists
have equal length. -/
theorem getAgentPlugins_alignment_witness : scs6.length = addrs6.length :=
  (getAgentPlugins_alignment decodeNone woc6 scs6 addrs6 rfl).1

/-- Claim C7: on the creation path the pod submitted to the remote API is
the synthesized pod; its container list is the discovered sidecars, in
order, followed by exactly one main container; the main container's
environment carries the workflow identifier in plain text and the address
list serialized as a JSON array of strings in the sidecar order; and the
restart policy is restart-on-failure. -/
theorem agentPod_container_shape (api : ClusterAPI)
    (decode : String → Except String (List String)) (woc : WfOperationCtx)
    (scs : List Container) (addrs : List String)
    (hecho : ∀ p, api.create p = .ok p)
    (hmiss : api.storeGet (woc.wf.ns ++ "/" ++ getAgentPodName woc) = .missing)
    (hdisc : getAgentPlugins decode woc = .ok (scs, addrs)) :
    (createAgentPod api decode woc).1 = .ok (some (synthesizePod woc scs addrs)) ∧
    (synthesizePod woc scs addrs).spec.containers =
      scs ++ [mainContainer woc addrs] ∧
    (mainContainer woc addrs).env =
      [⟨EnvVarWorkflowName, woc.wf.name⟩,
       ⟨EnvVarPluginAddresses, mustMarshallJSON addrs⟩] ∧
    (synthesizePod woc scs addrs).spec.restartPolicy = RestartPolicyOnFailure := by
  refine ⟨?_, rfl, rfl, rfl⟩
  have h1 : createAgentPod api decode woc =
      (match api.create (synthesizePod woc scs addrs) with
       | .ok created => (.ok (some created), ⟨1, 1, 1, 1, []⟩)
       | .alreadyExists => (.ok none, ⟨1, 1, 1, 1, []⟩)
       | .otherError m =>
         (.error ("failed to create Agent pod. Reason: " ++ m), ⟨1, 1, 1, 1, []⟩)) := by
    simp only [createAgentPod]
    rw [hmiss, hdisc]
  rw [h1, hecho (synthesizePod woc scs addrs)]

/-- Closed instance of C7 with empty discovery: the submitted pod is the
synthesized pod, whose single container is the main container, with the
two environment variables and the OnFailure restart policy. -/
theorem agentPod_container_shape_witness :
    (createAgentPod api7 decodeNone woc7).1 = .ok (some (synthesizePod woc7 [] [])) ∧
    (synthesizePod woc7 [] []).spec.containers = [] ++ [mainContainer woc7 []] ∧
    (mainContainer woc7 []).env =
      [⟨EnvVarWorkflowName, woc7.wf.name⟩,
       ⟨EnvVarPluginAddresses, mustMarshallJSON []⟩] ∧
    (synthesizePod woc7 [] []).spec.restartPolicy = RestartPolicyOnFailure :=
  agentPod_container_shape api7 decodeNone woc7 [] [] (fun _ => rfl) rfl rfl
